import Mathlib

/-!
# Player Session Controller — verification development

Shallow embedding of `src/structures/Player.ts` (the player session
controller of the lavalink client library) and proofs about it.

Modelling conventions:
* JavaScript numbers are modelled as `JNum` (either `NaN` or a rational);
  state fields that can never hold `NaN` are plain rationals `ℚ`.
* A thrown exception is an `Except.error` / `Option.none` result.
* Network dispatch (`node.updatePlayer`) is modelled by returning the
  payload that would be sent; an error result carries no payload, which
  models "dispatch never occurs".
* `ping` (round-trip latency bookkeeping) and the event emitter are
  outside the model: no claim mentions them and they do not influence
  any other field.
-/

namespace Lavalink

/-- A JavaScript number: `NaN` or a rational value. -/
inductive JNum where
  | nan : JNum
  | val : ℚ → JNum
deriving DecidableEq, Repr

/-- `Math.max(Math.min(v, 500), 0)` — the volume clamp used by the player. -/
def clamp500 (v : ℚ) : ℚ := max (min v 500) 0

/-- `Math.floor(v * 100) / 100` — flooring to two decimal places. -/
def floor2 (v : ℚ) : ℚ := (⌊v * 100⌋ : ℚ) / 100

/-- Manager-level player configuration read by the Player
(`LavalinkManager.options.playerOptions`). -/
structure ManagerConfig where
  volumeDecrementer : Option ℚ
  applyVolumeAsFilter : Bool
deriving DecidableEq, Repr

/-- Truthiness of the configured decrementer: in JS `if (x.volumeDecrementer)`
is false for `undefined` and for `0`. -/
def ManagerConfig.decOn (cfg : ManagerConfig) : Bool :=
  match cfg.volumeDecrementer with
  | some d => d != 0
  | none => false

/-- The numeric value of the decrementer (only meaningful when `decOn`). -/
def ManagerConfig.decVal (cfg : ManagerConfig) : ℚ :=
  (cfg.volumeDecrementer).getD 1

/-- The fields of `Track.info` that the Player reads. -/
structure TrackInfo where
  duration : ℚ
  isSeekable : Bool
  isStream : Bool
deriving DecidableEq, Repr

/-- A track as the Player sees it: opaque encoded payload plus info. -/
structure Track where
  encodedTrack : String
  info : TrackInfo
deriving DecidableEq, Repr

/-- The player's queue: one nullable current-track slot plus the ordered
pending sequence. The `Queue` class itself lives outside `src/`; its shape
is taken from the spec (§3): "ordered pending-track sequence plus a
current-track pointer". -/
structure Queue where
  current : Option Track
  pending : List Track
deriving DecidableEq, Repr

/-- Modelled from the spec: `Queue.size` counts the pending tracks (§4.3
"fails QueueEmpty if the queue has no pending tracks"); the Queue class is
outside `src/`. -/
def Queue.qsize (q : Queue) : Nat := q.pending.length

/-- Modelled from the spec: `Queue.isTrack` membership test used by `play`
(§4.3: the supplied track "is a member of the queue's track set"); the
Queue class is outside `src/`. -/
def Queue.isTrackMem (q : Queue) (t : Track) : Bool :=
  q.pending.contains t || q.current == some t

/-- Modelled from the spec: `Queue.setCurrent` makes the supplied track the
current track; the Queue class is outside `src/`. -/
def Queue.setCurrent (q : Queue) (t : Track) : Queue := ⟨some t, q.pending⟩

/-- Modelled from the spec: `Queue._trackEnd` advances to the next pending
track, honoring queue-repeat (§4.3); the Queue class is outside `src/`. -/
def Queue.trackEnd (q : Queue) (repeatQueue : Bool) : Queue :=
  match q.pending with
  | [] => ⟨none, []⟩
  | t :: rest =>
      ⟨some t,
        if repeatQueue then
          rest ++ (match q.current with | some c => [c] | none => [])
        else rest⟩

/-- `player.set(key, value)` on the side-channel data bag: JS object
assignment — overwrite the entry if the key exists, append otherwise. -/
def setKV {α : Type} (l : List (String × α)) (k : String) (v : α) :
    List (String × α) :=
  if (l.map Prod.fst).contains k then
    l.map (fun kv => if kv.1 == k then (k, v) else kv)
  else l ++ [(k, v)]

/-- `player.get(key)` on the side-channel data bag. -/
def getKV {α : Type} (l : List (String × α)) (k : String) : Option α :=
  l.lookup k

/-- `String.startsWith`, re-implemented by structural recursion over the
character lists (the library version is defined by well-founded recursion
over byte positions and does not reduce inside the kernel). -/
def charsStart : List Char → List Char → Bool
  | [], _ => true
  | _ :: _, [] => false
  | c :: cs, d :: ds => c == d && charsStart cs ds

/-- `s.startsWith pre`. -/
def strStartsWith (s pre : String) : Bool := charsStart pre.data s.data

/-- `Player.clearData`: compute `toKeep` = the keys starting with the
reserved prefix, then delete every entry whose key is not in `toKeep`. -/
def clearData {α : Type} (l : List (String × α)) : List (String × α) :=
  let toKeep := (l.map Prod.fst).filter (fun k => strStartsWith k "internal_")
  l.filter (fun kv => toKeep.contains kv.1)

/-- The errors the Player throws. Each constructor stands for the exact
JS `Error`/`RangeError`/`TypeError` message documented on it. -/
inductive PErr where
  /-- "No available Node was found, please add a LavalinkNode to the Manager
  via Manager.NodeManager#createNode" -/
  | noNodeAvailable
  /-- "Volume must be a number." (setVolume on NaN) -/
  | volumeNaN
  /-- "There is no Track in the Queue, nor provided in the PlayOptions" -/
  | noTrack
  /-- "PlayerOption#position must be a positive number, less than track's duration" -/
  | invalidPlayPosition
  /-- "PlayerOption#volume must be a positive number" -/
  | invalidPlayVolume
  /-- "PlayerOption#endTime must be a positive number, less than track's duration" -/
  | invalidPlayEndTime
  /-- "PlayerOption#endTime must be bigger than PlayerOption#position" -/
  | endTimeBeforePosition
  /-- "Player is already paused - not able to pause." -/
  | alreadyPaused
  /-- "Player isn't paused - not able to resume." -/
  | notPaused
  /-- "Position must be a number." (seek on NaN) -/
  | seekPositionNaN
  /-- "Current Track is not seekable / a stream" -/
  | notSeekable
  /-- "Repeatmode must be either 'off', 'track', or 'queue'" -/
  | invalidRepeatMode
  /-- "Can't skip more than the queue size" (both skip failure sites) -/
  | skipOutOfRange
deriving DecidableEq, Repr

/-- The mutable player state mirrored locally (`Player`'s own fields plus
its data bag and queue). Values stored in the data bag by the player are
positions, hence rationals. -/
structure PState where
  volume : ℚ
  lavalinkVolume : ℚ
  position : ℚ
  paused : Bool
  playing : Bool
  repeatMode : String
  data : List (String × ℚ)
  queue : Queue
deriving DecidableEq, Repr

/-- A remote node as the selector sees it: `node.options.regions`. -/
structure Node where
  regions : Option (List String)
deriving DecidableEq, Repr

/-- `v.options?.regions?.includes(r)` coerced to a boolean (an undefined
regions list is falsy, so such a node never matches a hint). -/
def Node.hasRegion (n : Node) (r : String) : Bool :=
  match n.regions with
  | some rs => rs.contains r
  | none => false

/-- Node selection from the constructor (line 121):
`leastUsedNodes.filter(regionPred)[0] || leastUsedNodes[0] || null`.
The pool is `leastUsedNodes`, pre-sorted by ascending load. -/
def selectNode (pool : List Node) (vcRegion : Option String) : Option Node :=
  ((pool.filter (fun n =>
      match vcRegion with
      | some r => n.hasRegion r
      | none => true)).head?).orElse
    (fun _ => pool.head?)

/-- The payload `setVolume` dispatches: either a top-level `volume` field
or a `filters.volume` field. -/
structure VolumePayload where
  volume : Option ℚ
  filtersVolume : Option ℚ
deriving DecidableEq, Repr

/-- `Player.setVolume(volume, ignoreVolumeDecrementer)` (lines 172-190).
Returns the updated state and the dispatched payload. -/
def setVolume (cfg : ManagerConfig) (s : PState) (v : JNum)
    (ignoreVolumeDecrementer : Bool) : Except PErr (PState × VolumePayload) :=
  match v with
  | .nan => .error .volumeNaN
  | .val v0 =>
      let cv := clamp500 v0
      let vol := if cfg.decOn && !ignoreVolumeDecrementer then cv * cfg.decVal else cv
      let s1 := { s with volume := cv, lavalinkVolume := floor2 vol }
      if cfg.applyVolumeAsFilter then
        .ok (s1, ⟨none, some (vol / 100)⟩)
      else
        .ok (s1, ⟨some vol, none⟩)

/-- The constructor options the model needs (`PlayerOptions`). -/
structure CtorOptions where
  vcRegion : Option String
  volume : Option JNum
deriving DecidableEq, Repr

/-- The player state right after the field initializers and line 125:
defaults, with `volume` scaled by a truthy decrementer (`lavalinkVolume`
is left at its default 100 by this line). -/
def initialState (cfg : ManagerConfig) : PState :=
  { volume := if cfg.decOn then 100 * cfg.decVal else 100
    lavalinkVolume := 100
    position := 0
    paused := false
    playing := false
    repeatMode := "off"
    data := []
    queue := ⟨none, []⟩ }

/-- The Player constructor (lines 112-131): select a node, throw if none,
scale the default volume by the decrementer, then apply an explicit
non-NaN starting volume via `setVolume`. Returns the state, the selected
node, and the payload dispatched by the embedded `setVolume` call (if
any). -/
def construct (cfg : ManagerConfig) (pool : List Node) (opts : CtorOptions) :
    Except PErr (PState × Node × Option VolumePayload) :=
  match selectNode pool opts.vcRegion with
  | none => .error .noNodeAvailable
  | some node =>
      let s0 := initialState cfg
      match opts.volume with
      | some (.val v) =>
          match setVolume cfg s0 (.val v) false with
          | .ok (s1, pl) => .ok (s1, node, some pl)
          | .error e => .error e
      | _ => .ok (s0, node, none)

/-- The `PlayOptions` fields the model carries (`filters`, `voice` and
`identifier` are opaque passthroughs no claim mentions). `none` is an
absent field; for `encodedTrack`, `some none` is an explicit JS `null`. -/
structure PlayCallOptions where
  track : Option Track
  encodedTrack : Option (Option String)
  position : Option JNum
  endTime : Option JNum
  volume : Option JNum
  noReplace : Option Bool
  paused : Option Bool
deriving DecidableEq, Repr

/-- The `playerOptions` body `play` dispatches (after deleting `track`
and `noReplace`). `encodedTrack = none` is an explicit JS `null`. -/
structure PlayPayload where
  encodedTrack : Option String
  volume : JNum
  position : JNum
  endTime : Option JNum
  paused : Option Bool
deriving DecidableEq, Repr

/-- Lines 134-135 of `play`: adopt a supplied queue-member track as
current, then advance via `_trackEnd` if there is still no current track
but pending tracks exist. -/
def playQueueStep (q : Queue) (ot : Option Track) (repeatQueue : Bool) : Queue :=
  let q1 := match ot with
    | some t => if q.isTrackMem t then q.setCurrent t else q
    | none => q
  if q1.current.isNone && !q1.pending.isEmpty then q1.trackEnd repeatQueue else q1

/-- Lines 139-145 of `play`: when a non-NaN numeric volume option is
supplied, clamp it into `volume`, derive `lavalinkVolume` through the
decrementer, and overwrite the option with the decremented value. Returns
the updated state and the (possibly overwritten) volume option. -/
def playVolumeStep (cfg : ManagerConfig) (s : PState) (ov : Option JNum) :
    PState × Option JNum :=
  match ov with
  | some (.val v) =>
      let cv := clamp500 v
      let vol := if cfg.decOn then cv * cfg.decVal else cv
      ({ s with volume := cv, lavalinkVolume := floor2 vol }, some (.val vol))
  | other => (s, other)

/-- Lines 157-160 of `play`: the four validation checks, in source order.
`pos` and `vol` are always present in `finalOptions` (they have defaults);
`endTime` has no default. Returns the first error hit, if any. -/
def playValidationError (dur : ℚ) (pos vol : JNum) (endT : Option JNum) :
    Option PErr :=
  if (match pos with
      | .nan => true
      | .val p => decide (p < 0 ∨ p ≥ dur)) then
    some .invalidPlayPosition
  else if (match vol with
      | .nan => true
      | .val v => decide (v < 0)) then
    some .invalidPlayVolume
  else if (match endT with
      | none => false
      | some .nan => true
      | some (.val e) => decide (e < 0 ∨ e ≥ dur)) then
    some .invalidPlayEndTime
  else if (match pos, endT with
      | .val p, some (.val e) => decide (e < p)
      | _, _ => false) then
    some .endTimeBeforePosition
  else none

/-- `Player.play(options)` (lines 133-170). The returned state reflects
every local mutation performed before a throw (current-track adoption,
the volume fields, and the `"lastposition"` data-bag entry); the payload
(and the `noReplace` sibling flag) exist only on success, since a thrown
validation error happens before `updatePlayer` is called. -/
def play (cfg : ManagerConfig) (s : PState) (opts : PlayCallOptions) :
    PState × Except PErr (PlayPayload × Bool) :=
  let q2 := playQueueStep s.queue opts.track (s.repeatMode == "queue")
  let sQ := { s with queue := q2 }
  match q2.current with
  | none => (sQ, .error .noTrack)
  | some track =>
      let vs := playVolumeStep cfg sQ opts.volume
      let s2 := { vs.1 with data := setKV vs.1.data "lastposition" s.position }
      let finalEncoded : Option String := (opts.encodedTrack).getD (some track.encodedTrack)
      let finalVolume : JNum := (vs.2).getD (.val vs.1.lavalinkVolume)
      let finalPosition : JNum := (opts.position).getD (.val 0)
      match playValidationError track.info.duration finalPosition finalVolume opts.endTime with
      | some e => (s2, .error e)
      | none =>
          (s2, .ok (⟨finalEncoded, finalVolume, finalPosition, opts.endTime, opts.paused⟩,
                    (opts.noReplace).getD false))

/-- `Player.pause()` (lines 220-227): throws iff already paused and not
playing; otherwise sets `paused` and dispatches `paused: true`. -/
def pause (s : PState) : Except PErr (PState × Bool) :=
  if s.paused && !s.playing then .error .alreadyPaused
  else .ok ({ s with paused := true }, true)

/-- `Player.resume()` (lines 228-235): throws iff not paused; otherwise
clears `paused` and dispatches `paused: false`. -/
def resume (s : PState) : Except PErr (PState × Bool) :=
  if !s.paused then .error .notPaused
  else .ok ({ s with paused := false }, false)

/-- `Player.seek(position)` (lines 237-249). `ok (s, none)` models the
`return undefined` no-op when there is no current track; `ok (s', some p)`
carries the dispatched position. -/
def seek (s : PState) (p : JNum) : Except PErr (PState × Option ℚ) :=
  match s.queue.current with
  | none => .ok (s, none)
  | some track =>
      match p with
      | .nan => .error .seekPositionNaN
      | .val p0 =>
          if !track.info.isSeekable || track.info.isStream then
            .error .notSeekable
          else
            let pos := if p0 < 0 ∨ p0 > track.info.duration then
                max (min p0 track.info.duration) 0
              else p0
            .ok ({ s with position := pos,
                          data := setKV s.data "internal_lastposition" pos },
                 some pos)

/-- `Player.setRepeatMode(mode)` (lines 251-255). -/
def setRepeatMode (s : PState) (m : String) : Except PErr PState :=
  if !(["off", "track", "queue"].contains m) then .error .invalidRepeatMode
  else .ok { s with repeatMode := m }

/-- The payload `skip` dispatches: `encodedTrack: null`. -/
structure SkipPayload where
  encodedTrack : Option String
deriving DecidableEq, Repr

/-- `Player.skip(skipTo)` (lines 262-273): throw on an empty pending
sequence; for `skipTo > 1` throw when it exceeds the queue size, else
splice away the first `skipTo - 1` pending tracks; dispatch
`encodedTrack: null` and return `true`. -/
def skip (s : PState) (skipTo : ℤ) : Except PErr (PState × SkipPayload × Bool) :=
  if s.queue.qsize == 0 then .error .skipOutOfRange
  else if skipTo > 1 then
    if skipTo > (s.queue.qsize : ℤ) then .error .skipOutOfRange
    else .ok ({ s with queue := ⟨s.queue.current, s.queue.pending.drop (skipTo - 1).toNat⟩ },
              ⟨none⟩, true)
  else .ok (s, ⟨none⟩, true)

/-! ## Search normalization (`Player.search`, lines 192-219)

The raw `/loadtracks` response body is untyped JSON, so this part of the
embedding works over a small JavaScript value universe. A property access
whose base is `null`/`undefined` throws a `TypeError`; throwing is
modelled by `Option.none`. -/

/-- A JavaScript value, as needed to model the untyped search payload. -/
inductive JSVal where
  | null
  | undefined
  | num (q : ℚ)
  | str (s : String)
  | bool (b : Bool)
  | arr (elems : List JSVal)
  | obj (fields : List (String × JSVal))

/-- JS truthiness. -/
def JSVal.truthy : JSVal → Bool
  | .null => false
  | .undefined => false
  | .bool b => b
  | .num q => q != 0
  | .str s => s != ""
  | .arr _ => true
  | .obj _ => true

/-- Property access `v.k`; `none` models a thrown TypeError (base is
nullish). A missing field reads as `undefined`; `.length` works on arrays
and strings. -/
def JSVal.getProp : JSVal → String → Option JSVal
  | .null, _ => none
  | .undefined, _ => none
  | .obj fs, k => some ((fs.lookup k).getD .undefined)
  | .arr xs, k => some (if k == "length" then .num (xs.length : ℚ) else .undefined)
  | .str s, k => some (if k == "length" then .num (s.length : ℚ) else .undefined)
  | _, _ => some .undefined

/-- Optional chaining `v?.k`: reads as `undefined` instead of throwing
when the base is nullish. -/
def JSVal.getOpt (v : JSVal) (k : String) : JSVal :=
  match v.getProp k with
  | some w => w
  | none => .undefined

/-- Computed access `v[i]` with a numeric index; throws on a nullish base,
reads out-of-range / non-integer indexes as `undefined`. -/
def JSVal.idx : JSVal → ℚ → Option JSVal
  | .null, _ => none
  | .undefined, _ => none
  | .arr xs, q =>
      some (if q.den = 1 ∧ 0 ≤ q.num then xs.getD q.num.toNat .undefined else .undefined)
  | _, _ => some .undefined

/-- `a || b` (both operands already evaluated). -/
def jsOr (a b : JSVal) : JSVal := if a.truthy then a else b

/-- Shallow string conversion used only by the `+` fallback below; array
stringification is abstracted (its exact text is never inspected). -/
def JSVal.toStr : JSVal → String
  | .null => "null"
  | .undefined => "undefined"
  | .bool b => if b then "true" else "false"
  | .num q => toString q
  | .str s => s
  | .arr _ => ""
  | .obj _ => "[object Object]"

/-- JS `+` on the values reachable in the duration fold; total (for these
value forms `+` never throws — non-numbers concatenate). -/
def jsAdd (a b : JSVal) : JSVal :=
  match a, b with
  | .num x, .num y => .num (x + y)
  | _, _ => .str (a.toStr ++ b.toStr)

/-- The typed view the code casts the `/loadtracks` response to
(line 196-200): `loadType`, `data`, `pluginInfo`. -/
structure RawSearchRes where
  loadType : String
  data : JSVal
  pluginInfo : JSVal

/-- Line 202: `resTracks` — playlist takes `data?.tracks`, track wraps
`[data]`, search takes `data` if it is an array else `[data]`, anything
else (error/empty) is `[]`. -/
def resTracksOf (res : RawSearchRes) : JSVal :=
  if res.loadType == "playlist" then res.data.getOpt "tracks"
  else if res.loadType == "track" then .arr [res.data]
  else if res.loadType == "search" then
    match res.data with
    | .arr xs => .arr xs
    | d => .arr [d]
  else .arr []

/-- `res.data.info?.f || res.data.pluginInfo?.f || null` (playlist `name`
and `author`, lines 209-210). The bare `res.data.info` access throws when
`data` is nullish. -/
def playlistInfoField (res : RawSearchRes) (field : String) : Option JSVal := do
  let info ← res.data.getProp "info"
  let n1 := info.getOpt field
  if n1.truthy then pure n1
  else do
    let pi ← res.data.getProp "pluginInfo"
    pure (jsOr (pi.getOpt field) .null)

/-- `res.data?.info?.selectedTrack` as read by lines 211 and 213. -/
def selRaw (res : RawSearchRes) : JSVal :=
  (res.data.getOpt "info").getOpt "selectedTrack"

/-- Playlist `thumbnail` (line 211): artwork from `info`, else from
`pluginInfo`, else from the selected track (guarded on `selectedTrack`
being a number other than `-1`; the bare `resTracks[sel]` access throws
when `resTracks` is nullish), else `null`. -/
def playlistThumb (res : RawSearchRes) (resTracks : JSVal) : Option JSVal := do
  let info ← res.data.getProp "info"
  let t1 := info.getOpt "artworkUrl"
  if t1.truthy then pure t1
  else do
    let pi ← res.data.getProp "pluginInfo"
    let t2 := pi.getOpt "artworkUrl"
    if t2.truthy then pure t2
    else do
      let t3 ← (match selRaw res with
        | .num q =>
            if q == (-1 : ℚ) then pure JSVal.null
            else do
              let el ← resTracks.idx q
              if el.truthy then
                pure (jsOr ((el.getOpt "info").getOpt "artworkUrl")
                           (((el.getOpt "info").getOpt "pluginInfo").getOpt "artworkUrl"))
              else pure JSVal.null
        | _ => pure JSVal.null)
      pure (jsOr t3 JSVal.null)

/-- Playlist `uri` (line 212): url → uri → link from `info`, then from
`pluginInfo`, else `null`. -/
def playlistUri (res : RawSearchRes) : Option JSVal := do
  let info ← res.data.getProp "info"
  let u1 := jsOr (info.getOpt "url") (jsOr (info.getOpt "uri") (info.getOpt "link"))
  if u1.truthy then pure u1
  else do
    let pi ← res.data.getProp "pluginInfo"
    pure (jsOr (pi.getOpt "url")
          (jsOr (pi.getOpt "uri") (jsOr (pi.getOpt "link") JSVal.null)))

/-- Playlist `selectedTrack` (line 213): null unless `selectedTrack` is a
number other than `-1` and the index resolves in `resTracks`, in which
case the element is passed through `buildTrack`. -/
def playlistSelTrack (res : RawSearchRes) (resTracks : JSVal)
    (bt : JSVal → JSVal) : Option JSVal :=
  match selRaw res with
  | .num q =>
      if q == (-1 : ℚ) then pure JSVal.null
      else do
        let el ← resTracks.idx q
        if el.truthy then pure (bt el) else pure JSVal.null
  | _ => pure JSVal.null

/-- Playlist `duration` (line 214): `resTracks.length ? resTracks.reduce(
(acc, cur) => acc + (cur?.info?.duration || 0), 0) : 0`. The `.length`
read throws on a nullish `resTracks`; `.reduce` throws unless `resTracks`
is an array. -/
def playlistDuration (resTracks : JSVal) : Option JSVal := do
  let len ← resTracks.getProp "length"
  if len.truthy then
    match resTracks with
    | .arr xs =>
        pure (xs.foldl
          (fun acc cur => jsAdd acc (jsOr ((cur.getOpt "info").getOpt "duration") (.num 0)))
          (.num 0))
    | _ => none
  else pure (.num 0)

/-- The `tracks` field (line 216): `resTracks.length ? resTracks.map(t =>
buildTrack(t, requestUser)) : []`. Same throwing shape as the duration. -/
def tracksField (resTracks : JSVal) (bt : JSVal → JSVal) :
    Option (List JSVal) := do
  let len ← resTracks.getProp "length"
  if len.truthy then
    match resTracks with
    | .arr xs => pure (xs.map bt)
    | _ => none
  else pure []

/-- The playlist sub-object of the normalized envelope. -/
structure PlaylistInfo where
  name : JSVal
  author : JSVal
  thumbnail : JSVal
  uri : JSVal
  selectedTrack : JSVal
  duration : JSVal

/-- The normalized `SearchResult` envelope (lines 204-217). -/
structure SearchResult where
  loadType : String
  exception : JSVal
  pluginInfo : JSVal
  playlist : Option PlaylistInfo
  tracks : List JSVal

/-- The normalization half of `Player.search` (lines 202-218), the part
after the HTTP request returns — the spec's `normalizeSearch`. `bt` is
`utilManager.buildTrack(·, requestUser)`, a pure total mapping per the
spec (§4.2); it lives outside `src/`. Fields are evaluated in the source's
object-literal order (playlist before tracks); `none` models a thrown
TypeError. -/
def normalizeSearch (bt : JSVal → JSVal) (res : RawSearchRes) :
    Option SearchResult := do
  let resTracks := resTracksOf res
  let pl ←
    if res.loadType == "playlist" then do
      let nm ← playlistInfoField res "name"
      let au ← playlistInfoField res "author"
      let th ← playlistThumb res resTracks
      let ur ← playlistUri res
      let st ← playlistSelTrack res resTracks bt
      let du ← playlistDuration resTracks
      pure (some (⟨nm, au, th, ur, st, du⟩ : PlaylistInfo))
    else pure none
  let tr ← tracksField resTracks bt
  pure ⟨res.loadType,
        if res.loadType == "error" then res.data else .null,
        jsOr res.pluginInfo (.obj []),
        pl, tr⟩

/-! ## Reachable player states

One step per public mutating operation of the Player. `play` mutates
local state even when it throws, so its step uses the returned state
unconditionally; the other operations mutate only on success. -/

/-- One completed (or, for `play`, attempted) operation on the player. -/
inductive Step (cfg : ManagerConfig) : PState → PState → Prop where
  | setVol {s s' : PState} {v : JNum} {ig : Bool} {pl : VolumePayload} :
      setVolume cfg s v ig = .ok (s', pl) → Step cfg s s'
  | doPlay {s : PState} (opts : PlayCallOptions) :
      Step cfg s (play cfg s opts).1
  | doPause {s s' : PState} {b : Bool} :
      pause s = .ok (s', b) → Step cfg s s'
  | doResume {s s' : PState} {b : Bool} :
      resume s = .ok (s', b) → Step cfg s s'
  | doSeek {s s' : PState} {p : JNum} {d : Option ℚ} :
      seek s p = .ok (s', d) → Step cfg s s'
  | doSetRepeat {s s' : PState} {m : String} :
      setRepeatMode s m = .ok s' → Step cfg s s'
  | doSkip {s s' : PState} {k : ℤ} {pl : SkipPayload} {b : Bool} :
      skip s k = .ok (s', pl, b) → Step cfg s s'
  | doSet {s : PState} (k : String) (v : ℚ) :
      Step cfg s { s with data := setKV s.data k v }
  | doClear {s : PState} :
      Step cfg s { s with data := clearData s.data }

/-- States reachable from any successful construction. -/
inductive Reachable (cfg : ManagerConfig) (pool : List Node) : PState → Prop where
  | init {opts : CtorOptions} {s : PState} {node : Node} {pl : Option VolumePayload} :
      construct cfg pool opts = .ok (s, node, pl) → Reachable cfg pool s
  | step {s s' : PState} :
      Reachable cfg pool s → Step cfg s s' → Reachable cfg pool s'

/-- Like `Step`, but `setVolume` is only taken with the default
`ignoreVolumeDecrementer = false`. -/
inductive StepA (cfg : ManagerConfig) : PState → PState → Prop where
  | setVol {s s' : PState} {v : JNum} {pl : VolumePayload} :
      setVolume cfg s v false = .ok (s', pl) → StepA cfg s s'
  | doPlay {s : PState} (opts : PlayCallOptions) :
      StepA cfg s (play cfg s opts).1
  | doPause {s s' : PState} {b : Bool} :
      pause s = .ok (s', b) → StepA cfg s s'
  | doResume {s s' : PState} {b : Bool} :
      resume s = .ok (s', b) → StepA cfg s s'
  | doSeek {s s' : PState} {p : JNum} {d : Option ℚ} :
      seek s p = .ok (s', d) → StepA cfg s s'
  | doSetRepeat {s s' : PState} {m : String} :
      setRepeatMode s m = .ok s' → StepA cfg s s'
  | doSkip {s s' : PState} {k : ℤ} {pl : SkipPayload} {b : Bool} :
      skip s k = .ok (s', pl, b) → StepA cfg s s'
  | doSet {s : PState} (k : String) (v : ℚ) :
      StepA cfg s { s with data := setKV s.data k v }
  | doClear {s : PState} :
      StepA cfg s { s with data := clearData s.data }

/-- States reachable when construction supplied an explicit numeric
starting volume and every `setVolume` call kept the default
`ignoreVolumeDecrementer = false`. -/
inductive ReachableA (cfg : ManagerConfig) (pool : List Node) : PState → Prop where
  | init {opts : CtorOptions} {v : ℚ} {s : PState} {node : Node} {pl : Option VolumePayload} :
      opts.volume = some (JNum.val v) →
      construct cfg pool opts = .ok (s, node, pl) → ReachableA cfg pool s
  | step {s s' : PState} :
      ReachableA cfg pool s → StepA cfg s s' → ReachableA cfg pool s'

/-! ## Helper lemmas -/

theorem head?_filter_eq_find? {α : Type} (p : α → Bool) (l : List α) :
    (l.filter p).head? = l.find? p := by
  induction l with
  | nil => rfl
  | cons a t ih =>
      by_cases h : p a
      · simp [List.filter_cons, List.find?_cons, h]
      · simp [List.filter_cons, List.find?_cons, h, ih]

theorem clearData_eq_filter {α : Type} (l : List (String × α)) :
    clearData l = l.filter (fun kv => strStartsWith kv.1 "internal_") := by
  unfold clearData
  apply List.filter_congr
  intro kv hkv
  cases hs : strStartsWith kv.1 "internal_"
  · cases hc : ((l.map Prod.fst).filter (fun k => strStartsWith k "internal_")).contains kv.1
    · rfl
    · exfalso
      have hmem : kv.1 ∈ (l.map Prod.fst).filter (fun k => strStartsWith k "internal_") := by
        simpa using hc
      have := (List.mem_filter.mp hmem).2
      simp [hs] at this
  · have hmem : kv.1 ∈ (l.map Prod.fst).filter (fun k => strStartsWith k "internal_") :=
      List.mem_filter.mpr ⟨List.mem_map.mpr ⟨kv, hkv, rfl⟩, by simp [hs]⟩
    simpa using hmem

theorem lookup_filter_reserved_none {α : Type} (l : List (String × α)) (k : String)
    (h : strStartsWith k "internal_" = false) :
    (l.filter (fun kv => strStartsWith kv.1 "internal_")).lookup k = none := by
  induction l with
  | nil => rfl
  | cons a t ih =>
      by_cases ha : strStartsWith a.1 "internal_"
      · rw [List.filter_cons_of_pos (by simpa using ha)]
        rw [List.lookup_cons]
        have hk : (k == a.1) = false := by
          cases hx : k == a.1
          · rfl
          · exfalso
            have := beq_iff_eq.mp hx
            rw [this] at h
            simp [ha] at h
        simp [hk, ih]
      · rw [List.filter_cons_of_neg (by simpa using ha)]
        exact ih

theorem getKV_clearData_none {α : Type} (l : List (String × α)) (k : String)
    (h : strStartsWith k "internal_" = false) : getKV (clearData l) k = none := by
  rw [show getKV (clearData l) k = (clearData l).lookup k from rfl, clearData_eq_filter]
  exact lookup_filter_reserved_none l k h

theorem lookup_append_single {α : Type} (l : List (String × α)) (k : String) (v : α)
    (h : (l.map Prod.fst).contains k = false) :
    (l ++ [(k, v)]).lookup k = some v := by
  induction l with
  | nil => simp [List.lookup_cons]
  | cons a t ih =>
      rw [List.map_cons, List.contains_cons] at h
      have h1 : (k == a.1) = false := by
        cases hz : k == a.1
        · rfl
        · rw [hz] at h; simp at h
      have h2 : (t.map Prod.fst).contains k = false := by
        cases hz : (t.map Prod.fst).contains k
        · rfl
        · rw [hz] at h; simp at h
      rw [List.cons_append, List.lookup_cons]
      simp [h1, ih h2]

theorem lookup_replace {α : Type} (l : List (String × α)) (k : String) (v : α)
    (h : (l.map Prod.fst).contains k = true) :
    (l.map (fun kv => if kv.1 == k then (k, v) else kv)).lookup k = some v := by
  induction l with
  | nil => simp at h
  | cons a t ih =>
      obtain ⟨a1, a2⟩ := a
      rw [List.map_cons, List.contains_cons] at h
      by_cases hx : k = a1
      · subst hx
        rw [List.map_cons]
        simp only [beq_self_eq_true, if_true]
        rw [List.lookup_cons]
        simp
      · have hik : (k == a1) = false := beq_eq_false_iff_ne.mpr hx
        have hki : (a1 == k) = false := beq_eq_false_iff_ne.mpr (Ne.symm hx)
        have h2 : (t.map Prod.fst).contains k = true := by
          rw [hik] at h
          simpa using h
        rw [List.map_cons, if_neg (by simp [hki]), List.lookup_cons, hik]
        exact ih h2

theorem getKV_setKV {α : Type} (l : List (String × α)) (k : String) (v : α) :
    getKV (setKV l k v) k = some v := by
  unfold getKV setKV
  cases hc : (l.map Prod.fst).contains k
  · rw [if_neg (by simp)]
    exact lookup_append_single l k v hc
  · rw [if_pos rfl]
    exact lookup_replace l k v hc

/-! ## Concrete fixtures used by witnesses and counterexamples -/

/-- Manager config: no decrementer, direct volume dispatch. -/
def cfgPlain : ManagerConfig := ⟨none, false⟩

/-- Manager config: 0.5 decrementer, direct volume dispatch. -/
def cfgHalf : ManagerConfig := ⟨some (1/2), false⟩

/-- Manager config: no decrementer, volume dispatched as a filter. -/
def cfgFilter : ManagerConfig := ⟨none, true⟩

/-- A seekable, non-stream track of duration 180000 ms. -/
def trk180 : Track := ⟨"enc180", ⟨180000, true, false⟩⟩

/-- Idle default state: no track, not paused, not playing. -/
def sIdle : PState := ⟨100, 100, 0, false, false, "off", [], ⟨none, []⟩⟩

/-- A state that is currently playing (not paused). -/
def sPlaying : PState := ⟨100, 100, 0, false, true, "off", [], ⟨none, []⟩⟩

/-- A state whose current track is `trk180`. -/
def sTrk : PState := ⟨100, 100, 0, false, false, "off", [], ⟨some trk180, []⟩⟩

/-- A state with three pending tracks. -/
def sQ3 : PState :=
  ⟨100, 100, 0, false, false, "off", [],
   ⟨some trk180, [⟨"a", ⟨1, true, false⟩⟩, ⟨"b", ⟨2, true, false⟩⟩, ⟨"c", ⟨3, true, false⟩⟩]⟩⟩

/-! ## C9 — clearData keeps exactly the reserved namespace -/

/-- C9: for every state of the side-channel data bag, `clearData` removes
exactly the entries whose keys do not start with the reserved prefix
`internal_`, and leaves every `internal_`-prefixed entry present with its
value unchanged: the result is precisely the bag filtered by the
reserved-prefix predicate. -/
theorem c9_clearData_keeps_exactly_reserved {α : Type} (l : List (String × α)) :
    clearData l = l.filter (fun kv => strStartsWith kv.1 "internal_") ∧
    ∀ k v, (k, v) ∈ clearData l ↔ ((k, v) ∈ l ∧ strStartsWith k "internal_" = true) := by
  refine ⟨clearData_eq_filter l, fun k v => ?_⟩
  rw [clearData_eq_filter l]
  exact List.mem_filter

/-! ## C6 — seek clamps instead of rejecting -/

/-- C6: with a seekable, non-stream current track of duration `d`,
`seek(p)` never rejects an out-of-range `p`: it succeeds, stores
`position = clamp(p, 0, d)` both in the state and under the reserved
`internal_lastposition` side-channel key, and dispatches that position. -/
theorem c6_seek_clamps (s : PState) (track : Track) (p : ℚ)
    (hcur : s.queue.current = some track)
    (hseek : track.info.isSeekable = true)
    (hstream : track.info.isStream = false) :
    seek s (.val p) =
      .ok ({ s with position := max (min p track.info.duration) 0,
                    data := setKV s.data "internal_lastposition"
                             (max (min p track.info.duration) 0) },
           some (max (min p track.info.duration) 0)) ∧
    getKV (setKV s.data "internal_lastposition" (max (min p track.info.duration) 0))
      "internal_lastposition" = some (max (min p track.info.duration) 0) := by
  constructor
  · unfold seek
    rw [hcur]
    dsimp only
    rw [hseek, hstream]
    have hclamp : (if p < 0 ∨ p > track.info.duration
        then max (min p track.info.duration) 0 else p) =
        max (min p track.info.duration) 0 := by
      by_cases h : p < 0 ∨ p > track.info.duration
      · rw [if_pos h]
      · rw [if_neg h]
        push_neg at h
        rw [min_eq_left h.2, max_eq_left h.1]
    simp only [Bool.not_true, Bool.false_or, if_false, hclamp]
    rfl
  · exact getKV_setKV s.data "internal_lastposition" (max (min p track.info.duration) 0)

/-- Witness for C6 at the spec's scenario: duration 180000, `seek(-50)`
clamps to 0. -/
theorem c6_witness :
    sTrk.queue.current = some trk180 ∧
    trk180.info.isSeekable = true ∧
    trk180.info.isStream = false ∧
    max (min (-50 : ℚ) trk180.info.duration) 0 = 0 ∧
    max (min (200000 : ℚ) trk180.info.duration) 0 = 180000 ∧
    (seek sTrk (.val (-50)) =
      .ok ({ sTrk with position := max (min (-50 : ℚ) trk180.info.duration) 0,
                       data := setKV sTrk.data "internal_lastposition"
                                (max (min (-50 : ℚ) trk180.info.duration) 0) },
           some (max (min (-50 : ℚ) trk180.info.duration) 0)) ∧
     getKV (setKV sTrk.data "internal_lastposition"
        (max (min (-50 : ℚ) trk180.info.duration) 0)) "internal_lastposition" =
       some (max (min (-50 : ℚ) trk180.info.duration) 0)) :=
  ⟨rfl, rfl, rfl, by decide, by decide, c6_seek_clamps sTrk trk180 (-50) rfl rfl rfl⟩

/-! ## C3 — pause/resume state conflicts -/

/-- C3 is false as stated: in a playing (non-paused) state, `pause()`
succeeds and a second `pause()` also succeeds, because the re-pause guard
only fires when the player is paused and not playing. -/
theorem c3_counterexample :
    pause sPlaying = .ok ({ sPlaying with paused := true }, true) ∧
    pause { sPlaying with paused := true } =
      .ok ({ sPlaying with paused := true }, true) :=
  ⟨rfl, rfl⟩

/-- C3 (amended): when the player is not playing, `pause()` then `pause()`
makes the second call fail with the already-paused state conflict (when the
player is playing, a second pause succeeds); `resume()` when the player is
not paused always fails with the not-paused state conflict. -/
theorem c3_pause_resume_conflicts :
    (∀ (s s1 : PState) (b : Bool), s.playing = false → pause s = .ok (s1, b) →
       pause s1 = .error .alreadyPaused) ∧
    (∀ s : PState, s.paused = false → resume s = .error .notPaused) := by
  constructor
  · intro s s1 b hp h
    unfold pause at h ⊢
    split at h
    · exact absurd h (by simp)
    · cases h
      rw [if_pos]
      simp [hp]
  · intro s hp
    unfold resume
    rw [if_pos]
    simp [hp]

/-- Witness for C3 (amended) in the idle state. -/
theorem c3_witness :
    sIdle.playing = false ∧
    pause sIdle = .ok ({ sIdle with paused := true }, true) ∧
    pause { sIdle with paused := true } = .error .alreadyPaused ∧
    sIdle.paused = false ∧
    resume sIdle = .error .notPaused :=
  ⟨rfl, rfl, c3_pause_resume_conflicts.1 sIdle { sIdle with paused := true } true rfl rfl,
   rfl, c3_pause_resume_conflicts.2 sIdle rfl⟩

/-! ## C7 — skip -/

/-- C7: `skip(skipTo)` fails on an empty pending sequence and when
`skipTo` exceeds the queue size; `skipTo = 0` or `1` leaves the pending
sequence unchanged; `skipTo > 1` removes exactly `skipTo - 1` tracks from
the front; every success dispatches `encodedTrack: null` and returns
`true`. -/
theorem c7_skip_spec (s : PState) (k : ℤ) :
    (s.queue.pending = [] → skip s k = .error .skipOutOfRange) ∧
    (s.queue.pending ≠ [] → (s.queue.pending.length : ℤ) < k →
       skip s k = .error .skipOutOfRange) ∧
    ((k = 0 ∨ k = 1) → s.queue.pending ≠ [] →
       skip s k = .ok (s, ⟨none⟩, true)) ∧
    (1 < k → k ≤ (s.queue.pending.length : ℤ) →
       skip s k =
         .ok ({ s with queue := ⟨s.queue.current, s.queue.pending.drop (k - 1).toNat⟩ },
              ⟨none⟩, true) ∧
       (s.queue.pending.drop (k - 1).toNat).length =
         s.queue.pending.length - (k - 1).toNat) := by
  refine ⟨?_, ?_, ?_, ?_⟩
  · intro h
    unfold skip Queue.qsize
    rw [h]
    rfl
  · intro hne hlt
    have hpos : 0 < s.queue.pending.length := List.length_pos.mpr hne
    have hk1 : (1 : ℤ) < k := lt_of_le_of_lt (by exact_mod_cast hpos) hlt
    unfold skip Queue.qsize
    rw [if_neg (by simp [Nat.pos_iff_ne_zero.mp hpos]), if_pos hk1, if_pos hlt]
  · rintro (rfl | rfl) hne <;>
      { have hpos : 0 < s.queue.pending.length := List.length_pos.mpr hne
        unfold skip Queue.qsize
        rw [if_neg (by simp [Nat.pos_iff_ne_zero.mp hpos]), if_neg (by norm_num)] }
  · intro h1 hle
    have hlen : (1 : ℤ) < (s.queue.pending.length : ℤ) := lt_of_lt_of_le h1 hle
    have hne : s.queue.pending.length ≠ 0 := by
      intro hz
      rw [hz] at hlen
      norm_num at hlen
    refine ⟨?_, List.length_drop _ _⟩
    unfold skip Queue.qsize
    rw [if_neg (by simp [hne]), if_pos h1, if_neg (by omega)]

/-- Witness for C7: a three-track pending queue, `skip(2)` drops one. -/
theorem c7_witness :
    ((1 : ℤ) < 2) ∧ ((2 : ℤ) ≤ (sQ3.queue.pending.length : ℤ)) ∧
    (skip sQ3 2 =
       .ok ({ sQ3 with queue := ⟨sQ3.queue.current, sQ3.queue.pending.drop ((2 : ℤ) - 1).toNat⟩ },
            ⟨none⟩, true) ∧
     (sQ3.queue.pending.drop ((2 : ℤ) - 1).toNat).length =
       sQ3.queue.pending.length - ((2 : ℤ) - 1).toNat) :=
  ⟨by decide, by decide, (c7_skip_spec sQ3 2).2.2.2 (by decide) (by decide)⟩

/-! ## C8 — node selection at construction -/

/-- C8: with a region hint, construction takes the first node (in the
pool's ascending-load order) advertising that region; when no node
advertises it, construction falls back to the globally least-used node
instead of failing; an empty pool aborts construction with the
no-node-available error. (`opts.volume = none` keeps the embedded
`setVolume` call out of the picture; it cannot fail anyway.) -/
theorem c8_construct_node_selection (cfg : ManagerConfig) (pool : List Node) (r : String) :
    (∀ n : Node, pool.find? (fun nd => nd.hasRegion r) = some n →
       ∀ opts : CtorOptions, opts.vcRegion = some r → opts.volume = none →
         construct cfg pool opts = .ok (initialState cfg, n, none)) ∧
    (pool.all (fun nd => !nd.hasRegion r) = true →
       ∀ (n0 : Node) (rest : List Node), pool = n0 :: rest →
       ∀ opts : CtorOptions, opts.vcRegion = some r → opts.volume = none →
         construct cfg pool opts = .ok (initialState cfg, n0, none)) ∧
    (∀ opts : CtorOptions, construct cfg [] opts = .error .noNodeAvailable) := by
  refine ⟨?_, ?_, ?_⟩
  · intro n hfind opts hvc hvol
    have hsel : selectNode pool opts.vcRegion = some n := by
      unfold selectNode
      rw [hvc]
      dsimp only
      rw [head?_filter_eq_find?, hfind]
      rfl
    unfold construct
    rw [hsel, hvol]
  · intro hall n0 rest hpool opts hvc hvol
    have hsel : selectNode pool opts.vcRegion = some n0 := by
      unfold selectNode
      rw [hvc]
      dsimp only
      have hfilter : pool.filter (fun n => n.hasRegion r) = [] := by
        rw [List.filter_eq_nil_iff]
        intro a ha
        have := List.all_eq_true.mp hall a ha
        simpa using this
      rw [hfilter, hpool]
      rfl
    unfold construct
    rw [hsel, hvol]
  · intro opts
    unfold construct selectNode
    rw [List.filter_nil]
    rfl

/-- Fixture pool: an EU node then a US node (ascending load order). -/
def nodeEU : Node := ⟨some ["eu"]⟩

/-- Fixture: the US node of the witness pool. -/
def nodeUS : Node := ⟨some ["us"]⟩

/-- Fixture pool for the C8 witness. -/
def poolW : List Node := [nodeEU, nodeUS]

/-- Witness for C8: hint "us" picks the second node; hint "asia" (nobody
advertises it) falls back to the first node; the empty pool fails. -/
theorem c8_witness :
    (poolW.find? (fun nd => nd.hasRegion "us") = some nodeUS ∧
     construct cfgPlain poolW ⟨some "us", none⟩ = .ok (initialState cfgPlain, nodeUS, none)) ∧
    (poolW.all (fun nd => !nd.hasRegion "asia") = true ∧
     construct cfgPlain poolW ⟨some "asia", none⟩ = .ok (initialState cfgPlain, nodeEU, none)) ∧
    construct cfgPlain [] ⟨none, none⟩ = .error .noNodeAvailable :=
  ⟨⟨by decide,
    (c8_construct_node_selection cfgPlain poolW "us").1 nodeUS (by decide)
      ⟨some "us", none⟩ rfl rfl⟩,
   ⟨by decide,
    (c8_construct_node_selection cfgPlain poolW "asia").2.1 (by decide)
      nodeEU [nodeUS] rfl ⟨some "asia", none⟩ rfl rfl⟩,
   (c8_construct_node_selection cfgPlain [] "x").2.2 ⟨none, none⟩⟩

/-! ## C4 — setVolume dispatch shapes -/

/-- C4 is false as stated: with `applyVolumeAsFilter`, `setVolume(33.335)`
dispatches filter volume `0.33335` — the decremented/clamped value before
the two-decimal floor, divided by 100 — while `lavalinkVolume/100` is
`0.3333`. -/
theorem c4_counterexample :
    setVolume cfgFilter sIdle (.val (33335/1000)) false =
      .ok ({ sIdle with volume := 33335/1000, lavalinkVolume := 3333/100 },
           ⟨none, some (33335/100000)⟩) ∧
    ¬ ((33335/100000 : ℚ) = (3333/100) / 100) := by
  constructor
  · unfold setVolume cfgFilter
    norm_num [ManagerConfig.decOn, ManagerConfig.decVal, clamp500, floor2,
      min_def, max_def, sIdle]
  · norm_num

/-- C4 (amended): the two dispatch shapes are mutually exclusive and fixed
by the configuration: with `applyVolumeAsFilter` the payload has no
top-level volume field and its filter-volume equals the clamped,
decremented volume (before the two-decimal floor) divided by 100 — which
equals `lavalinkVolume/100` exactly when that value already has two-decimal
precision; without it, the payload has a top-level volume and no
filter-volume field. -/
theorem c4_setVolume_dispatch_shapes (cfg : ManagerConfig) (s s' : PState)
    (v0 : ℚ) (ig : Bool) (pl : VolumePayload)
    (h : setVolume cfg s (.val v0) ig = .ok (s', pl)) :
    (cfg.applyVolumeAsFilter = true →
       pl.volume = none ∧
       pl.filtersVolume =
         some ((if cfg.decOn && !ig then clamp500 v0 * cfg.decVal else clamp500 v0) / 100)) ∧
    (cfg.applyVolumeAsFilter = false →
       pl.filtersVolume = none ∧
       pl.volume = some (if cfg.decOn && !ig then clamp500 v0 * cfg.decVal else clamp500 v0)) ∧
    (floor2 (if cfg.decOn && !ig then clamp500 v0 * cfg.decVal else clamp500 v0) =
        (if cfg.decOn && !ig then clamp500 v0 * cfg.decVal else clamp500 v0) →
     cfg.applyVolumeAsFilter = true →
       pl.filtersVolume = some (s'.lavalinkVolume / 100)) := by
  unfold setVolume at h
  dsimp only at h
  cases hf : cfg.applyVolumeAsFilter
  · rw [hf] at h
    rw [if_neg (by simp)] at h
    cases h
    refine ⟨by simp, fun _ => ⟨rfl, rfl⟩, ?_⟩
    intro _ hc
    simp at hc
  · rw [hf] at h
    rw [if_pos rfl] at h
    cases h
    refine ⟨fun _ => ⟨rfl, rfl⟩, by simp, ?_⟩
    intro hfloor _
    dsimp only
    rw [hfloor]

/-- Witness for C4 (amended) with the filter configuration and volume 40
(already two-decimal, so the original equation also holds there). -/
theorem c4_witness :
    (setVolume cfgFilter sIdle (.val 40) false =
      .ok ({ sIdle with volume := 40, lavalinkVolume := floor2 40 }, ⟨none, some (40/100)⟩)) ∧
    ((cfgFilter.applyVolumeAsFilter = true →
       (⟨none, some (40/100)⟩ : VolumePayload).volume = none ∧
       (⟨none, some (40/100)⟩ : VolumePayload).filtersVolume =
         some ((if cfgFilter.decOn && !false then clamp500 40 * cfgFilter.decVal else clamp500 40) / 100)) ∧
     (cfgFilter.applyVolumeAsFilter = false →
       (⟨none, some (40/100)⟩ : VolumePayload).filtersVolume = none ∧
       (⟨none, some (40/100)⟩ : VolumePayload).volume =
         some (if cfgFilter.decOn && !false then clamp500 40 * cfgFilter.decVal else clamp500 40)) ∧
     (floor2 (if cfgFilter.decOn && !false then clamp500 40 * cfgFilter.decVal else clamp500 40) =
         (if cfgFilter.decOn && !false then clamp500 40 * cfgFilter.decVal else clamp500 40) →
      cfgFilter.applyVolumeAsFilter = true →
       (⟨none, some (40/100)⟩ : VolumePayload).filtersVolume =
         some (({ sIdle with volume := 40, lavalinkVolume := floor2 40 } : PState).lavalinkVolume / 100))) := by
  have h : setVolume cfgFilter sIdle (.val 40) false =
      .ok ({ sIdle with volume := 40, lavalinkVolume := floor2 40 },
           ⟨none, some (40/100)⟩) := by
    unfold setVolume cfgFilter
    norm_num [ManagerConfig.decOn, ManagerConfig.decVal, clamp500, min_def, max_def, sIdle]
  exact ⟨h, c4_setVolume_dispatch_shapes cfgFilter sIdle
    { sIdle with volume := 40, lavalinkVolume := floor2 40 } 40 false
    ⟨none, some (40/100)⟩ h⟩

/-! ## C1 — search normalization totality -/

/-- C1 (code bug): a playlist response whose `data` has no `tracks` array
makes the normalization throw — `resTracks` is `undefined` and the
unguarded `resTracks.length` read (playlist duration, line 214) raises a
TypeError — so the normalization is not total as the spec requires. The
same input with an (even empty) `tracks` array present normalizes fine,
as do the other load types with nullish data. -/
theorem c1_normalizeSearch_playlist_missing_tracks_throws :
    normalizeSearch id ⟨"playlist", .obj [], .null⟩ = none ∧
    (normalizeSearch id ⟨"playlist", .obj [("tracks", .arr [])], .null⟩).isSome = true ∧
    (normalizeSearch id ⟨"track", .null, .null⟩).isSome = true ∧
    (normalizeSearch id ⟨"search", .null, .null⟩).isSome = true ∧
    (normalizeSearch id ⟨"empty", .null, .null⟩).isSome = true ∧
    (normalizeSearch id ⟨"error", .null, .null⟩).isSome = true :=
  ⟨rfl, rfl, rfl, rfl, rfl, rfl⟩

/-! ## play lemmas shared by C5 and C10 -/

theorem playQueueStep_current {q : Queue} {track : Track} (rq : Bool)
    (h : q.current = some track) : playQueueStep q none rq = q := by
  unfold playQueueStep
  simp [h]

theorem pvErr_pos_bad {dur : ℚ} {pos : JNum} (vol : JNum) (endT : Option JNum)
    (h : match pos with | .nan => True | .val p => p < 0 ∨ dur ≤ p) :
    playValidationError dur pos vol endT = some .invalidPlayPosition := by
  unfold playValidationError
  cases pos with
  | nan => rw [if_pos rfl]
  | val p =>
      dsimp only at h ⊢
      rw [if_pos (by simp only [decide_eq_true_eq]; exact h.imp id fun h2 => h2)]

theorem pvErr_vol_nan {dur : ℚ} {pos : JNum} (endT : Option JNum)
    (hpos : match pos with | .nan => False | .val p => 0 ≤ p ∧ p < dur) :
    playValidationError dur pos .nan endT = some .invalidPlayVolume := by
  unfold playValidationError
  cases pos with
  | nan => exact absurd hpos (by simp)
  | val p =>
      dsimp only at hpos ⊢
      rw [if_neg (by
            simp only [decide_eq_true_eq]
            rintro (h2 | h2) <;> [linarith [hpos.1]; linarith [hpos.2]]),
          if_pos rfl]

theorem pvErr_end_bad {dur p v : ℚ} {endT : Option JNum}
    (hp : 0 ≤ p) (hp2 : p < dur) (hv : 0 ≤ v)
    (hend : match endT with
            | none => False
            | some .nan => True
            | some (.val e) => e < 0 ∨ dur ≤ e) :
    playValidationError dur (.val p) (.val v) endT = some .invalidPlayEndTime := by
  unfold playValidationError
  dsimp only
  rw [if_neg (by simp only [decide_eq_true_eq]; rintro (h2 | h2) <;> linarith),
      if_neg (by simp only [decide_eq_true_eq]; intro h2; linarith)]
  cases endT with
  | none => exact absurd hend (by simp)
  | some e =>
      cases e with
      | nan => rw [if_pos rfl]
      | val e0 =>
          dsimp only at hend
          rw [if_pos (by simp only [decide_eq_true_eq]; exact hend.imp id fun h2 => h2)]

theorem pvErr_cross {dur p e v : ℚ} (hp : 0 ≤ p) (hp2 : p < dur)
    (hv : 0 ≤ v) (he : 0 ≤ e) (he2 : e < dur) (hlt : e < p) :
    playValidationError dur (.val p) (.val v) (some (.val e)) =
      some .endTimeBeforePosition := by
  unfold playValidationError
  dsimp only
  rw [if_neg (by simp only [decide_eq_true_eq]; rintro (h2 | h2) <;> linarith),
      if_neg (by simp only [decide_eq_true_eq]; intro h2; linarith),
      if_neg (by simp only [decide_eq_true_eq]; rintro (h2 | h2) <;> linarith),
      if_pos (by simp only [decide_eq_true_eq]; exact hlt)]

theorem pvErr_none {dur p v : ℚ} (hp : 0 ≤ p) (hp2 : p < dur) (hv : 0 ≤ v) :
    playValidationError dur (.val p) (.val v) none = none := by
  unfold playValidationError
  dsimp only
  rw [if_neg (by simp only [decide_eq_true_eq]; rintro (h2 | h2) <;> linarith),
      if_neg (by simp only [decide_eq_true_eq]; intro h2; linarith),
      if_neg (by simp), if_neg (by simp)]

/-! ## C5 — play validation -/

/-- C5 is false as stated: a negative volume option is clamped to 0 before
validation, so `play({volume: -5})` succeeds (and dispatches) instead of
being rejected. -/
theorem c5_counterexample :
    (play cfgPlain sTrk ⟨none, none, none, none, some (.val (-5)), none, none⟩).2 =
      .ok (⟨some "enc180", .val 0, .val 0, none, none⟩, false) := by
  unfold play sTrk trk180
  dsimp only
  rw [playQueueStep_current _ rfl]
  dsimp only [playVolumeStep]
  have hv : clamp500 (-5) = 0 := by
    unfold clamp500
    norm_num [min_def, max_def]
  rw [hv]
  have hdec : ManagerConfig.decOn cfgPlain = false := rfl
  rw [hdec]
  rw [if_neg (by simp)]
  simp only [Option.getD_some, Option.getD_none]
  rw [pvErr_none le_rfl (by norm_num) le_rfl]

/-- C5 (amended): with a current track of duration `d`: a NaN, negative or
`≥ d` effective position fails validation (no dispatch happens — an error
result carries no payload); position 0 succeeds when `0 < d`; a NaN volume
fails; a negative volume option, however, is clamped to 0 before
validation and accepted rather than rejected; a NaN or out-of-`[0, d)`
endTime fails; `endTime < position` with both given fails. -/
theorem c5_play_validation (cfg : ManagerConfig) (s : PState) (track : Track)
    (hcur : s.queue.current = some track) :
    (∀ opts : PlayCallOptions, opts.track = none →
       (match (opts.position).getD (.val 0) with
        | .nan => True
        | .val p => p < 0 ∨ track.info.duration ≤ p) →
       (play cfg s opts).2 = .error .invalidPlayPosition) ∧
    (0 < track.info.duration → 0 ≤ s.lavalinkVolume →
       ((play cfg s ⟨none, none, some (.val 0), none, none, none, none⟩).2).isOk = true) ∧
    (∀ opts : PlayCallOptions, opts.track = none → opts.volume = some .nan →
       (match (opts.position).getD (.val 0) with
        | .nan => False
        | .val p => 0 ≤ p ∧ p < track.info.duration) →
       (play cfg s opts).2 = .error .invalidPlayVolume) ∧
    (∀ v : ℚ, v < 0 → 0 < track.info.duration →
       ((play cfg s ⟨none, none, none, none, some (.val v), none, none⟩).2).isOk = true ∧
       (play cfg s ⟨none, none, none, none, some (.val v), none, none⟩).1.volume = 0) ∧
    (∀ e : JNum, ∀ p : ℚ, 0 ≤ p → p < track.info.duration → 0 ≤ s.lavalinkVolume →
       (match e with
        | .nan => True
        | .val e0 => e0 < 0 ∨ track.info.duration ≤ e0) →
       (play cfg s ⟨none, none, some (.val p), some e, none, none, none⟩).2 =
         .error .invalidPlayEndTime) ∧
    (∀ p e : ℚ, 0 ≤ p → p < track.info.duration → 0 ≤ e → e < track.info.duration →
       e < p → 0 ≤ s.lavalinkVolume →
       (play cfg s ⟨none, none, some (.val p), some (.val e), none, none, none⟩).2 =
         .error .endTimeBeforePosition) := by
  refine ⟨?_, ?_, ?_, ?_, ?_, ?_⟩
  · intro opts htr hbad
    unfold play
    rw [htr, playQueueStep_current _ hcur]
    dsimp only
    rw [hcur]
    dsimp only
    rw [pvErr_pos_bad _ _ hbad]
  · intro hd hlv
    unfold play
    rw [playQueueStep_current _ hcur]
    dsimp only
    rw [hcur]
    dsimp only [playVolumeStep]
    simp only [Option.getD_some, Option.getD_none]
    rw [pvErr_none le_rfl hd hlv]
    rfl
  · intro opts htr hvol hpos
    unfold play
    rw [htr, playQueueStep_current _ hcur]
    dsimp only
    rw [hcur]
    dsimp only
    rw [hvol]
    dsimp only [playVolumeStep]
    simp only [Option.getD_some, Option.getD_none]
    rw [pvErr_vol_nan _ hpos]
  · intro v hv hd
    have hcl : clamp500 v = 0 := by
      unfold clamp500
      rw [min_eq_left (by linarith), max_eq_right (by linarith)]
    have hvol0 : (if cfg.decOn then (0 : ℚ) * cfg.decVal else 0) = 0 := by
      cases h : cfg.decOn <;> simp
    constructor
    · unfold play
      rw [playQueueStep_current _ hcur]
      dsimp only
      rw [hcur]
      dsimp only [playVolumeStep]
      rw [hcl, hvol0]
      simp only [Option.getD_some, Option.getD_none]
      rw [pvErr_none le_rfl hd le_rfl]
      rfl
    · unfold play
      rw [playQueueStep_current _ hcur]
      dsimp only
      rw [hcur]
      dsimp only [playVolumeStep]
      rw [hcl]
      split
      · rfl
      · rfl
  · intro e p hp hp2 hlv hend
    unfold play
    rw [playQueueStep_current _ hcur]
    dsimp only
    rw [hcur]
    dsimp only [playVolumeStep]
    simp only [Option.getD_some, Option.getD_none]
    rw [pvErr_end_bad hp hp2 hlv
      (by cases e with | nan => exact hend | val e0 => exact hend)]
  · intro p e hp hp2 he he2 hlt hlv
    unfold play
    rw [playQueueStep_current _ hcur]
    dsimp only
    rw [hcur]
    dsimp only [playVolumeStep]
    simp only [Option.getD_some, Option.getD_none]
    rw [pvErr_cross hp hp2 hlv he he2 hlt]

/-- Witness for C5 (amended) on a 180000 ms track: position 200000 is
rejected; position 0 accepted; NaN volume rejected; volume -3 accepted
with volume clamped to 0; endTime 180000 rejected; endTime 10 < position
20 rejected. -/
theorem c5_witness :
    (sTrk.queue.current = some trk180) ∧
    (play cfgPlain sTrk ⟨none, none, some (.val 200000), none, none, none, none⟩).2 =
      .error .invalidPlayPosition ∧
    ((play cfgPlain sTrk ⟨none, none, some (.val 0), none, none, none, none⟩).2).isOk = true ∧
    (play cfgPlain sTrk ⟨none, none, none, none, some .nan, none, none⟩).2 =
      .error .invalidPlayVolume ∧
    ((play cfgPlain sTrk ⟨none, none, none, none, some (.val (-3)), none, none⟩).2).isOk = true ∧
    (play cfgPlain sTrk ⟨none, none, some (.val 0), some (.val 180000), none, none, none⟩).2 =
      .error .invalidPlayEndTime ∧
    (play cfgPlain sTrk ⟨none, none, some (.val 20), some (.val 10), none, none, none⟩).2 =
      .error .endTimeBeforePosition := by
  have h := c5_play_validation cfgPlain sTrk trk180 rfl
  exact ⟨rfl,
    h.1 ⟨none, none, some (.val 200000), none, none, none, none⟩ rfl (by norm_num [trk180]),
    h.2.1 (by norm_num [trk180]) (by norm_num [sTrk]),
    h.2.2.1 ⟨none, none, none, none, some .nan, none, none⟩ rfl rfl (by norm_num [trk180]),
    (h.2.2.2.1 (-3) (by norm_num) (by norm_num [trk180])).1,
    h.2.2.2.2.1 (.val 180000) 0 le_rfl (by norm_num [trk180]) (by norm_num [sTrk])
      (by norm_num [trk180]),
    h.2.2.2.2.2 20 10 (by norm_num) (by norm_num [trk180]) (by norm_num)
      (by norm_num [trk180]) (by norm_num) (by norm_num [sTrk])⟩

/-! ## C10 — play mutates local state before validation -/

/-- C10: `play` mutates local state before its validation runs: with a
numeric volume option and a position that fails validation, the call
errors (so nothing is dispatched — the error result carries no payload),
yet the returned state has `volume`/`lavalinkVolume` updated from the
option and the previous position stored under the key `"lastposition"`,
which is not `internal_`-prefixed and therefore does not survive
`clearData`. -/
theorem c10_play_mutates_before_validation (cfg : ManagerConfig) (s : PState)
    (track : Track) (v p : ℚ)
    (hcur : s.queue.current = some track)
    (hp : track.info.duration ≤ p) :
    (play cfg s ⟨none, none, some (.val p), none, some (.val v), none, none⟩).2 =
      .error .invalidPlayPosition ∧
    (play cfg s ⟨none, none, some (.val p), none, some (.val v), none, none⟩).1.volume =
      clamp500 v ∧
    (play cfg s ⟨none, none, some (.val p), none, some (.val v), none, none⟩).1.lavalinkVolume =
      floor2 (if cfg.decOn then clamp500 v * cfg.decVal else clamp500 v) ∧
    getKV (play cfg s ⟨none, none, some (.val p), none, some (.val v), none, none⟩).1.data
      "lastposition" = some s.position ∧
    strStartsWith "lastposition" "internal_" = false ∧
    getKV (clearData
      (play cfg s ⟨none, none, some (.val p), none, some (.val v), none, none⟩).1.data)
      "lastposition" = none := by
  have hplay : play cfg s ⟨none, none, some (.val p), none, some (.val v), none, none⟩ =
      ({ s with volume := clamp500 v,
                lavalinkVolume := floor2 (if cfg.decOn then clamp500 v * cfg.decVal
                                          else clamp500 v),
                data := setKV s.data "lastposition" s.position },
       .error .invalidPlayPosition) := by
    unfold play
    rw [playQueueStep_current _ hcur]
    dsimp only
    rw [hcur]
    dsimp only [playVolumeStep]
    simp only [Option.getD_some, Option.getD_none]
    rw [pvErr_pos_bad _ _ (Or.inr hp)]
  rw [hplay]
  refine ⟨rfl, rfl, rfl, getKV_setKV s.data "lastposition" s.position, by decide, ?_⟩
  rw [getKV_clearData_none]
  decide

/-- Witness for C10: decrementer 0.5, volume option 80, position 200000 on
a 180000 ms track: play fails validation but volume becomes 80,
lavalinkVolume 40, and `"lastposition"` is stored yet cleared by
`clearData`. -/
theorem c10_witness :
    (sTrk.queue.current = some trk180) ∧
    (trk180.info.duration ≤ 200000) ∧
    ((play cfgHalf sTrk ⟨none, none, some (.val 200000), none, some (.val 80), none, none⟩).2 =
       .error .invalidPlayPosition ∧
     (play cfgHalf sTrk ⟨none, none, some (.val 200000), none, some (.val 80), none, none⟩).1.volume =
       clamp500 80 ∧
     (play cfgHalf sTrk ⟨none, none, some (.val 200000), none, some (.val 80), none, none⟩).1.lavalinkVolume =
       floor2 (if cfgHalf.decOn then clamp500 80 * cfgHalf.decVal else clamp500 80) ∧
     getKV (play cfgHalf sTrk ⟨none, none, some (.val 200000), none, some (.val 80), none, none⟩).1.data
       "lastposition" = some sTrk.position ∧
     strStartsWith "lastposition" "internal_" = false ∧
     getKV (clearData
       (play cfgHalf sTrk ⟨none, none, some (.val 200000), none, some (.val 80), none, none⟩).1.data)
       "lastposition" = none) :=
  ⟨rfl, by norm_num [trk180],
   c10_play_mutates_before_validation cfgHalf sTrk trk180 80 200000 rfl
     (by norm_num [trk180])⟩

/-! ## C2 — the lavalinkVolume derivation invariant -/

theorem setVolume_ok_volInv {cfg : ManagerConfig} {s s' : PState} {v : JNum}
    {pl : VolumePayload} (h1 : cfg.decOn = true)
    (h : setVolume cfg s v false = .ok (s', pl)) :
    s'.lavalinkVolume = floor2 (s'.volume * cfg.decVal) := by
  unfold setVolume at h
  cases v with
  | nan => exact absurd h (by simp)
  | val v0 =>
      dsimp only at h
      rw [h1] at h
      simp only [Bool.not_false, Bool.and_self, eq_self_iff_true, if_true] at h
      cases ha : cfg.applyVolumeAsFilter
      · rw [ha, if_neg (by simp)] at h
        cases h
        rfl
      · rw [ha, if_pos rfl] at h
        cases h
        rfl

theorem play_volInv (cfg : ManagerConfig) (s : PState) (opts : PlayCallOptions)
    (h1 : cfg.decOn = true)
    (ih : s.lavalinkVolume = floor2 (s.volume * cfg.decVal)) :
    (play cfg s opts).1.lavalinkVolume =
      floor2 ((play cfg s opts).1.volume * cfg.decVal) := by
  unfold play
  dsimp only
  split
  · exact ih
  · cases hv : opts.volume with
    | none =>
        dsimp only [playVolumeStep]
        split
        · exact ih
        · exact ih
    | some jv =>
        cases jv with
        | nan =>
            dsimp only [playVolumeStep]
            split
            · exact ih
            · exact ih
        | val v0 =>
            dsimp only [playVolumeStep]
            rw [h1]
            split
            · simp
            · simp

theorem pause_ok_fields {s s' : PState} {b : Bool} (h : pause s = .ok (s', b)) :
    s'.volume = s.volume ∧ s'.lavalinkVolume = s.lavalinkVolume := by
  unfold pause at h
  split at h
  · exact absurd h (by simp)
  · cases h
    exact ⟨rfl, rfl⟩

theorem resume_ok_fields {s s' : PState} {b : Bool} (h : resume s = .ok (s', b)) :
    s'.volume = s.volume ∧ s'.lavalinkVolume = s.lavalinkVolume := by
  unfold resume at h
  split at h
  · exact absurd h (by simp)
  · cases h
    exact ⟨rfl, rfl⟩

theorem seek_ok_fields {s s' : PState} {p : JNum} {d : Option ℚ}
    (h : seek s p = .ok (s', d)) :
    s'.volume = s.volume ∧ s'.lavalinkVolume = s.lavalinkVolume := by
  unfold seek at h
  cases hc : s.queue.current with
  | none =>
      rw [hc] at h
      cases h
      exact ⟨rfl, rfl⟩
  | some track =>
      rw [hc] at h
      dsimp only at h
      cases p with
      | nan => exact absurd h (by simp)
      | val p0 =>
          dsimp only at h
          split at h
          · exact absurd h (by simp)
          · cases h
            exact ⟨rfl, rfl⟩

theorem setRepeatMode_ok_fields {s s' : PState} {m : String}
    (h : setRepeatMode s m = .ok s') :
    s'.volume = s.volume ∧ s'.lavalinkVolume = s.lavalinkVolume := by
  unfold setRepeatMode at h
  split at h
  · exact absurd h (by simp)
  · cases h
    exact ⟨rfl, rfl⟩

theorem skip_ok_fields {s s' : PState} {k : ℤ} {pl : SkipPayload} {b : Bool}
    (h : skip s k = .ok (s', pl, b)) :
    s'.volume = s.volume ∧ s'.lavalinkVolume = s.lavalinkVolume := by
  unfold skip at h
  split at h
  · exact absurd h (by simp)
  · split at h
    · split at h
      · exact absurd h (by simp)
      · cases h
        exact ⟨rfl, rfl⟩
    · cases h
      exact ⟨rfl, rfl⟩

theorem construct_ok_with_volume_volInv {cfg : ManagerConfig} {pool : List Node}
    {opts : CtorOptions} {v : ℚ} {s : PState} {node : Node} {pl : Option VolumePayload}
    (h1 : cfg.decOn = true) (hv : opts.volume = some (.val v))
    (hc : construct cfg pool opts = .ok (s, node, pl)) :
    s.lavalinkVolume = floor2 (s.volume * cfg.decVal) := by
  unfold construct at hc
  cases hsel : selectNode pool opts.vcRegion with
  | none =>
      rw [hsel] at hc
      exact absurd hc (by simp)
  | some nd =>
      rw [hsel] at hc
      dsimp only at hc
      rw [hv] at hc
      dsimp only at hc
      cases hsv : setVolume cfg (initialState cfg) (.val v) false with
      | error e =>
          rw [hsv] at hc
          exact absurd hc (by simp)
      | ok pr =>
          obtain ⟨s1, pl1⟩ := pr
          rw [hsv] at hc
          dsimp only at hc
          cases hc
          exact setVolume_ok_volInv h1 hsv

/-- C2 (amended): when a truthy volume decrementer is configured and
`applyVolumeAsFilter` is false, `lavalinkVolume = floor(volume *
decrementer * 100)/100` holds in every state reachable through a
construction that supplied an explicit numeric starting volume and
through operations whose `setVolume` calls keep the default
`ignoreVolumeDecrementer = false` — every volume write re-derives
`lavalinkVolume` from `volume` and the configuration. It does not hold
immediately after a construction without an explicit starting volume (the
constructor scales `volume` by the decrementer but leaves `lavalinkVolume`
at 100), which is the counterexample to the claim as stated. -/
theorem c2_lavalinkVolume_invariant (cfg : ManagerConfig) (pool : List Node)
    (s : PState) (h1 : cfg.decOn = true) (h2 : cfg.applyVolumeAsFilter = false)
    (h : ReachableA cfg pool s) :
    s.lavalinkVolume = floor2 (s.volume * cfg.decVal) := by
  induction h with
  | init hv hc => exact construct_ok_with_volume_volInv h1 hv hc
  | step hr hst ih =>
      cases hst with
      | setVol hsv => exact setVolume_ok_volInv h1 hsv
      | doPlay opts => exact play_volInv cfg _ opts h1 ih
      | doPause hp =>
          rw [(pause_ok_fields hp).1, (pause_ok_fields hp).2]
          exact ih
      | doResume hp =>
          rw [(resume_ok_fields hp).1, (resume_ok_fields hp).2]
          exact ih
      | doSeek hp =>
          rw [(seek_ok_fields hp).1, (seek_ok_fields hp).2]
          exact ih
      | doSetRepeat hp =>
          rw [(setRepeatMode_ok_fields hp).1, (setRepeatMode_ok_fields hp).2]
          exact ih
      | doSkip hp =>
          rw [(skip_ok_fields hp).1, (skip_ok_fields hp).2]
          exact ih
      | doSet k v => exact ih
      | doClear => exact ih

/-- C2 is false as stated: right after a construction with a 0.5
decrementer and no explicit starting volume (a reachable state), the
constructor has scaled `volume` to 50 but left `lavalinkVolume` at 100,
which differs from `floor(50 * 0.5 * 100)/100 = 25` — so `lavalinkVolume`
is not derivable from `volume` there. -/
theorem c2_counterexample :
    Reachable cfgHalf [⟨none⟩] (initialState cfgHalf) ∧
    cfgHalf.decOn = true ∧
    cfgHalf.applyVolumeAsFilter = false ∧
    (initialState cfgHalf).volume = 50 ∧
    (initialState cfgHalf).lavalinkVolume = 100 ∧
    ¬ ((initialState cfgHalf).lavalinkVolume =
        floor2 ((initialState cfgHalf).volume * cfgHalf.decVal)) := by
  have hdec : cfgHalf.decOn = true := by
    simp only [cfgHalf, ManagerConfig.decOn]
    rw [bne_iff_ne]
    norm_num
  refine ⟨Reachable.init (show construct cfgHalf [⟨none⟩] ⟨none, none⟩ =
      .ok (initialState cfgHalf, ⟨none⟩, none) from rfl), hdec, rfl, ?_, ?_, ?_⟩
  · simp only [initialState, hdec, if_true]
    norm_num [cfgHalf, ManagerConfig.decVal]
  · simp [initialState]
  · simp only [initialState, hdec, if_true]
    norm_num [cfgHalf, ManagerConfig.decVal, floor2]

/-- The state after constructing with starting volume 100 under the 0.5
decrementer. -/
def sHalf : PState := ⟨100, 50, 0, false, false, "off", [], ⟨none, []⟩⟩

/-- Witness for C2 (amended): construction with explicit starting volume
100 under the 0.5 decrementer reaches `sHalf`, where `lavalinkVolume = 50
= floor2(100 * 0.5)`. -/
theorem c2_witness :
    cfgHalf.decOn = true ∧
    cfgHalf.applyVolumeAsFilter = false ∧
    sHalf.lavalinkVolume = floor2 (sHalf.volume * cfgHalf.decVal) := by
  have hdec : cfgHalf.decOn = true := by
    simp only [cfgHalf, ManagerConfig.decOn]
    rw [bne_iff_ne]
    norm_num
  have hsv : setVolume cfgHalf (initialState cfgHalf) (.val 100) false =
      .ok (sHalf, ⟨some 50, none⟩) := by
    unfold setVolume
    dsimp only
    rw [hdec]
    simp only [Bool.not_false, Bool.and_self, eq_self_iff_true, if_true]
    rw [if_neg (by simp [cfgHalf])]
    norm_num [clamp500, min_def, max_def, floor2, ManagerConfig.decVal, cfgHalf,
      initialState, sHalf, hdec]
  have hc : construct cfgHalf [⟨none⟩] ⟨none, some (.val 100)⟩ =
      .ok (sHalf, ⟨none⟩, some ⟨some 50, none⟩) := by
    unfold construct
    rw [show selectNode [(⟨none⟩ : Node)]
        ((⟨none, some (.val 100)⟩ : CtorOptions).vcRegion) = some ⟨none⟩ from rfl]
    dsimp only
    rw [hsv]
  exact ⟨hdec, rfl,
    c2_lavalinkVolume_invariant cfgHalf [⟨none⟩] sHalf hdec rfl
      (ReachableA.init
        (show (⟨none, some (.val 100)⟩ : CtorOptions).volume = some (.val 100) from rfl)
        hc)⟩

end Lavalink
